import Mathlib

/-!
Verification of `network_monitor.py` (AutoNetMon).

The Python source is shallowly embedded: external effects (subprocess
invocations, the HTTP request, wall-clock time) are parameters of the
functions that perform them, every pure piece of parsing logic is
translated function-for-function, and exceptions are modelled with
`Except` where the source lets them escape a `try` block.  The Python
string operations are modelled by structurally recursive functions over
`String.data` so that every definition evaluates inside the kernel.
-/

deriving instance DecidableEq for Except

namespace AutoNetMon

/-! ### Python string primitives -/

/-- Does `pat` occur as a contiguous sublist?  Models Python's `pat in s`. -/
def listContains (pat : List Char) : List Char → Bool
  | [] => pat.isEmpty
  | c :: rest => pat.isPrefixOf (c :: rest) || listContains pat rest

/-- Python's `pat in s` substring test. -/
def pyIn (pat s : String) : Bool :=
  listContains pat.data s.data

/-- Worker for `splitList`; the fuel is an upper bound on the number of
steps, each of which consumes at least one character. -/
def splitListGo (pat : List Char) : ℕ → List Char → List Char → List (List Char)
  | 0, s, acc => [acc.reverse ++ s]
  | fuel + 1, s, acc =>
    match s with
    | [] => [acc.reverse]
    | c :: rest =>
      if pat.isPrefixOf (c :: rest) then
        acc.reverse :: splitListGo pat fuel (List.drop pat.length (c :: rest)) []
      else
        splitListGo pat fuel rest (c :: acc)

/-- Split at every non-overlapping occurrence of `pat`, left to right,
keeping empty pieces.  Models Python's `s.split(pat)` for nonempty `pat`. -/
def splitList (pat s : List Char) : List (List Char) :=
  if pat.isEmpty then [s] else splitListGo pat (s.length + 1) s []

/-- Python `s.split(pat)` on strings. -/
def pySplit (s pat : String) : List String :=
  (splitList pat.data s.data).map String.mk

/-- Worker for `pySplitWs`. -/
def splitWsGo : List Char → List Char → List (List Char)
  | [], acc => [acc.reverse]
  | c :: rest, acc =>
    if c.isWhitespace then acc.reverse :: splitWsGo rest []
    else splitWsGo rest (c :: acc)

/-- Python `s.split()` (no separator): split on whitespace, dropping empty
pieces. -/
def pySplitWs (s : String) : List String :=
  ((splitWsGo s.data []).filter (fun t => !t.isEmpty)).map String.mk

/-- Strip leading and trailing whitespace from a character list. -/
def trimList (cs : List Char) : List Char :=
  ((cs.dropWhile Char.isWhitespace).reverse.dropWhile Char.isWhitespace).reverse

/-- Python `s.strip()`. -/
def pyStrip (s : String) : String :=
  String.mk (trimList s.data)

/-- Python `s.splitlines()` for `\n`-separated text: interior empty lines are
kept, a single trailing terminator produces no extra empty line. -/
def pySplitlines (s : String) : List String :=
  let parts := (splitList ['\n'] s.data).map String.mk
  if parts.getLastD "" = "" then parts.dropLast else parts

/-- Python truthiness of an optional string: `None` and `""` are falsy. -/
def pyTruthy : Option String → Bool
  | none => false
  | some s => !s.data.isEmpty

/-- Python f-string rendering of an optional string: `None` prints as "None". -/
def pyStr : Option String → String
  | none => "None"
  | some s => s

/-- Numeric value of a digit list (most significant digit first). -/
def natOfDigits (cs : List Char) : ℕ :=
  cs.foldl (fun n c => 10 * n + (c.toNat - 48)) 0

/-- Python `float(s)` on plain decimal literals (optional sign, digits, one
optional dot); `none` models a `ValueError` for every other input shape that
occurs in this program. -/
def pyFloat? (s : String) : Option ℚ :=
  let t := trimList s.data
  let sb : Bool × List Char :=
    match t with
    | '-' :: rest => (true, rest)
    | '+' :: rest => (false, rest)
    | _ => (false, t)
  let sgn : ℚ → ℚ := fun q => if sb.1 then -q else q
  match splitList ['.'] sb.2 with
  | [ipart] =>
      if !ipart.isEmpty && ipart.all Char.isDigit then
        some (sgn (mkRat (natOfDigits ipart) 1))
      else none
  | [ipart, fpart] =>
      if (!ipart.isEmpty || !fpart.isEmpty)
          && ipart.all Char.isDigit && fpart.all Char.isDigit then
        some (sgn (mkRat (natOfDigits ipart * 10 ^ fpart.length + natOfDigits fpart)
          (10 ^ fpart.length)))
      else none
  | _ => none

/-- Smallest exponent k with d dividing 10 to the k, if one exists below 40. -/
def decExp (d : ℕ) : Option ℕ :=
  (List.range 40).find? (fun k => 10 ^ k % d == 0)

/-- Python f-string rendering of a float holding an exact decimal value
(repr of the shortest decimal, always with at least one fractional digit:
`12.3` prints "12.3", `0.0` prints "0.0"). -/
def pyFloatRepr (q : ℚ) : String :=
  let n := q.num.natAbs
  let d := q.den
  let sign := if q.num < 0 then "-" else ""
  match decExp d with
  | none => sign ++ Nat.repr n ++ "/" ++ Nat.repr d
  | some 0 => sign ++ Nat.repr n ++ ".0"
  | some (k + 1) =>
      let m := n * (10 ^ (k + 1) / d)
      let ipart := m / 10 ^ (k + 1)
      let fpart := m % 10 ^ (k + 1)
      let fs := Nat.repr fpart
      let fs := String.mk (List.replicate (k + 1 - fs.length) '0') ++ fs
      sign ++ Nat.repr ipart ++ "." ++ fs

/-! ### External-effect outcomes -/

/-- Outcome of one `subprocess.check_output` invocation: captured output on a
zero exit, `calledProcessError` for a non-zero exit, and `exn` for any other
exception the executor can raise (e.g. `FileNotFoundError` when the binary is
missing, or a decode error). -/
inductive ExecResult
  | ok (output : String)
  | calledProcessError
  | exn
deriving DecidableEq, Repr

/-- Outcome of `requests.get`: a response with an HTTP status and body, or a
`requests.exceptions.RequestException` (connection error, timeout, ...). -/
inductive HttpResult
  | resp (status : ℕ) (body : String)
  | requestException
deriving DecidableEq, Repr

/-- Platform branch taken by comparing platform.system().lower() with "windows". -/
inductive Platform
  | windows
  | posix
deriving DecidableEq, Repr

/-! ### get_public_ip (source lines 56-69) -/

/-- `get_public_ip`: returns `response.text` unless a `RequestException` was
raised.  `response.raise_for_status()` (from the requests library) raises
`HTTPError` — itself a `RequestException`, so caught — exactly for statuses in
[400, 600); any other status, 2xx or not, returns the body. -/
def get_public_ip (r : HttpResult) : String :=
  match r with
  | .resp status body =>
      if 400 ≤ status ∧ status < 600 then "Unable to get IP" else body
  | .requestException => "Unable to get IP"

/-! ### ping_google (source lines 71-103) -/

/-- The POSIX latency extraction: the text after the last time= marker, cut at
the first space character, then stripped (split on the marker, index -1, split
on a space, index 0, strip). -/
def posixLatencyToken (output : String) : String :=
  String.mk (trimList
    ((splitList [' '] ((splitList "time=".data output.data).getLastD [])).headD []))

/-- The Windows token search: the first whitespace-separated token containing
the marker 时间= or the marker time=. -/
def windowsLatencyToken (output : String) : Option String :=
  (pySplitWs output).find? (fun s => pyIn "时间=" s || pyIn "time=" s)

/-- The Windows latency cleanup: keep only the digit and dot characters of
the token (the join-of-filter expression in the source). -/
def digitsAndDots (s : String) : String :=
  String.mk (s.data.filter (fun ch => ch.isDigit || ch == '.'))

/-- `ping_google` given the platform branch and the executor outcome.  Only
`subprocess.CalledProcessError` is caught (→ `(False, 0.0)`); any other
executor exception propagates (`Except.error`).  Inside a zero-exit branch,
latency-parsing exceptions are caught and execution falls through to
`return True, 0.0`. -/
def ping_google (plat : Platform) (r : ExecResult) : Except Unit (Bool × ℚ) :=
  match r with
  | .calledProcessError => .ok (false, 0)
  | .exn => .error ()
  | .ok output =>
    match plat with
    | .windows =>
        if pyIn "TTL=" output then
          match windowsLatencyToken output with
          | some tok =>
              match pyFloat? (digitsAndDots tok) with
              | some v => .ok (true, v)
              | none => .ok (true, 0)
          | none => .ok (true, 0)
        else .ok (true, 0)
    | .posix =>
        if pyIn "time=" output then
          match pyFloat? (posixLatencyToken output) with
          | some v => .ok (true, v)
          | none => .ok (true, 0)
        else .ok (true, 0)

/-! ### get_active_network_service (source lines 105-146) -/

/-- The dictionary built by `get_active_network_service`: the keys
`network_name` and `device_name` (their values can be Python `None`), and
whether the `error` key was added by an exception handler. -/
structure NetworkService where
  network_name : Option String
  device_name : Option String
  hasError : Bool
deriving DecidableEq, Repr

/-- The `{"network_name": "Error", "device_name": None, "error": str(e)}`
dictionary returned by both exception handlers. -/
def errSvc : NetworkService :=
  ⟨some "Error", none, true⟩

/-- One external command invocation, as observed by the monitor loop. -/
inductive Ev
  | timestamp
  | httpGet
  | ping
  | route
  | networksetup
  | ifconfig (dev : String)
  | report (line : String)
  | sleep (secs : ℕ)
deriving DecidableEq, Repr

/-- The route scan: first line containing "interface:" gives
`line.split(":")[1].strip()`.  `Except.error` models the (unreachable)
`IndexError` that the surrounding `except Exception` would catch. -/
def interfaceFromRoute (routeOut : String) : Except Unit (Option String) :=
  match (pySplitlines routeOut).find? (fun l => pyIn "interface:" l) with
  | none => .ok none
  | some l =>
    match (pySplit l ":")[1]? with
    | none => .error ()
    | some v => .ok (some (pyStrip v))

/-- Is this a line the `"Hardware Port" in line` branch takes? -/
def hpLine (l : String) : Bool :=
  pyIn "Hardware Port" l

/-- The `networksetup -listallhardwareports` scan: remember the latest
`Hardware Port` label, return at the first line containing "Device" and the
interface.  `Except.error` models an `IndexError` from `line.split(":")[1]`
on a line with no colon (caught by the function's `except Exception`). -/
def findHardwarePort (iface : String) (cp : Option String) :
    List String → Except Unit NetworkService
  | [] => .ok ⟨some "Unknown Network", none, false⟩
  | l :: rest =>
    if hpLine l then
      match (pySplit l ":")[1]? with
      | none => .error ()
      | some v => findHardwarePort iface (some (pyStrip v)) rest
    else if pyIn "Device" l && pyIn iface l then
      match (pySplit l ":")[1]? with
      | none => .error ()
      | some v => .ok ⟨cp, some (pyStrip v), false⟩
    else
      findHardwarePort iface cp rest

/-- `get_active_network_service`, given the outcomes of the `route` and
`networksetup` invocations.  Both `except` clauses (for
`CalledProcessError` and for every other `Exception`) return `errSvc`; the
second component records which commands were invoked. -/
def get_active_network_service (r n : ExecResult) : NetworkService × List Ev :=
  match r with
  | .calledProcessError => (errSvc, [.route])
  | .exn => (errSvc, [.route])
  | .ok routeOut =>
    match interfaceFromRoute routeOut with
    | .error _ => (errSvc, [.route])
    | .ok ai =>
      if pyTruthy ai then
        match n with
        | .calledProcessError => (errSvc, [.route, .networksetup])
        | .exn => (errSvc, [.route, .networksetup])
        | .ok nsOut =>
          match findHardwarePort (ai.getD "") none (pySplitlines nsOut) with
          | .error _ => (errSvc, [.route, .networksetup])
          | .ok svc => (svc, [.route, .networksetup])
      else
        (⟨some "No Active Network", none, false⟩, [.route])

/-! ### get_mac_address (source lines 148-175) -/

/-- `get_mac_address`: returns `None` immediately for a falsy device name;
otherwise runs `ifconfig <device>` and returns the second whitespace token of
the first line containing "ether".  Every exception — non-zero exit, missing
binary, or the `IndexError` from `line.split()[1]` — is caught and yields
`None`. -/
def get_mac_address (ifc : String → ExecResult) (device_name : Option String) :
    Option String × List Ev :=
  if pyTruthy device_name = false then (none, [])
  else
    let d := device_name.getD ""
    match ifc d with
    | .calledProcessError => (none, [.ifconfig d])
    | .exn => (none, [.ifconfig d])
    | .ok out =>
      match (pySplitlines out).find? (fun l => pyIn "ether" l) with
      | none => (none, [.ifconfig d])
      | some l =>
        match (pySplitWs l)[1]? with
        | none => (none, [.ifconfig d])
        | some tok => (some (pyStrip tok), [.ifconfig d])

/-! ### get_active_network_info (source lines 177-191) -/

/-- The dictionary built by `get_active_network_info`. -/
structure NetworkInfo where
  network_name : Option String
  device_name : Option String
  mac_address : Option String
deriving DecidableEq, Repr

/-- `get_active_network_info`: combines the service lookup with the MAC
lookup, which is only invoked when the device name is truthy. -/
def get_active_network_info (r n : ExecResult) (ifc : String → ExecResult) :
    NetworkInfo × List Ev :=
  let svc := (get_active_network_service r n).1
  let tr := (get_active_network_service r n).2
  let mt :=
    if pyTruthy svc.device_name then get_mac_address ifc svc.device_name
    else (none, [])
  (⟨svc.network_name, svc.device_name, mt.1⟩, tr ++ mt.2)

/-! ### main's monitor loop body (source lines 204-223) -/

/-- The per-cycle record assembled by `main` (data model "Snapshot"). -/
structure Snapshot where
  timestamp : String
  is_connected : Bool
  latency : ℚ
  public_ip : String
  network_name : Option String
  device_name : Option String
  mac_address : Option String
deriving DecidableEq, Repr

/-- The `log_entry` f-string of `main`, including the conditional
`" | Latency: {latency}ms"` suffix appended only when `is_connected`. -/
def format_log_entry (current_time : String)
    (network_name device_name mac_address : Option String)
    (public_ip : String) (is_connected : Bool) (latency : ℚ) : String :=
  let status := if is_connected then "Connected" else "Disconnected"
  let entry := current_time ++ " | Network: " ++ pyStr network_name
    ++ " | Device Name: " ++ pyStr device_name
    ++ " | MAC Address: " ++ pyStr mac_address
    ++ " | IP: " ++ public_ip ++ " | Status: " ++ status
  if is_connected then entry ++ " | Latency: " ++ pyFloatRepr latency ++ "ms"
  else entry

/-- The external world one cycle runs against: the wall-clock string and the
outcome of each external call. -/
structure World where
  platform : Platform
  now : String
  httpResp : HttpResult
  pingExec : ExecResult
  routeExec : ExecResult
  netsetupExec : ExecResult
  ifconfigExec : String → ExecResult

/-- One iteration of `main`'s `while True` body: timestamp, then
`get_public_ip()`, then `ping_google()`, then `get_active_network_info()`,
then the log line, then `time.sleep(30)`.  The first component is the trace
of external actions in order; the second is the assembled Snapshot and log
line, or `Except.error` when `ping_google` raised. -/
def runCycle (w : World) : List Ev × Except Unit (Snapshot × String) :=
  let public_ip := get_public_ip w.httpResp
  match ping_google w.platform w.pingExec with
  | .error e => ([.timestamp, .httpGet, .ping], .error e)
  | .ok cl =>
    let is_connected := cl.1
    let latency := cl.2
    let itr := get_active_network_info w.routeExec w.netsetupExec w.ifconfigExec
    let info := itr.1
    let tr := itr.2
    let s : Snapshot :=
      ⟨w.now, is_connected, latency, public_ip,
        info.network_name, info.device_name, info.mac_address⟩
    let log := format_log_entry w.now info.network_name info.device_name
      info.mac_address public_ip is_connected latency
    ([.timestamp, .httpGet, .ping] ++ tr ++ [.report log, .sleep 30],
      .ok (s, log))

/-! ### Concrete worlds used by counterexamples and witnesses -/

/-- A fully successful cycle matching end-to-end scenario 2 of the spec. -/
def w1 : World where
  platform := .posix
  now := "2026-10-12 00:00:00"
  httpResp := .resp 200 "203.0.113.7"
  pingExec := .ok "64 bytes from 142.250.80.14: icmp_seq=0 ttl=115 time=12.3 ms"
  routeExec := .ok "   route to: default\n interface: en0\n"
  netsetupExec := .ok "Hardware Port: Wi-Fi\nDevice: en0\n"
  ifconfigExec := fun _ => .ok "\tether aa:bb:cc:dd:ee:ff\n"

/-- The log line emitted in world `w1`. -/
def line1 : String :=
  "2026-10-12 00:00:00 | Network: Wi-Fi | Device Name: en0 | MAC Address: aa:bb:cc:dd:ee:ff | IP: 203.0.113.7 | Status: Connected | Latency: 12.3ms"

/-- The Snapshot assembled in world `w1`. -/
def snap1 : Snapshot :=
  ⟨"2026-10-12 00:00:00", true, mkRat 123 10, "203.0.113.7",
    some "Wi-Fi", some "en0", some "aa:bb:cc:dd:ee:ff"⟩

/-- A world whose only failure is a missing `ping` binary. -/
def w0 : World where
  platform := .posix
  now := "2026-10-12 00:00:00"
  httpResp := .resp 200 "203.0.113.7"
  pingExec := .exn
  routeExec := .ok "   route to: default\n interface: en0\n"
  netsetupExec := .ok "Hardware Port: Wi-Fi\nDevice: en0\n"
  ifconfigExec := fun _ => .ok "\tether aa:bb:cc:dd:ee:ff\n"

/-! ### Views of one cycle's results -/

/-- The pair `ping_google` hands to `main` when it returns. -/
def pingOutcome (w : World) : Bool × ℚ :=
  (ping_google w.platform w.pingExec).toOption.getD (false, 0)

/-- The network-info lookup one cycle performs. -/
def netInfo (w : World) : NetworkInfo × List Ev :=
  get_active_network_info w.routeExec w.netsetupExec w.ifconfigExec

/-- The log line one cycle emits. -/
def cycleLog (w : World) : String :=
  format_log_entry w.now (netInfo w).1.network_name (netInfo w).1.device_name
    (netInfo w).1.mac_address (get_public_ip w.httpResp)
    (pingOutcome w).1 (pingOutcome w).2

/-- The Snapshot one cycle assembles. -/
def mkSnap (w : World) : Snapshot :=
  ⟨w.now, (pingOutcome w).1, (pingOutcome w).2, get_public_ip w.httpResp,
    (netInfo w).1.network_name, (netInfo w).1.device_name,
    (netInfo w).1.mac_address⟩

/-! ### Characterization helpers for the hardware-port scan -/

/-- Does this line take the `elif "Device" in line and active_interface in
line` branch?  (A line containing "Hardware Port" takes the first branch
instead.) -/
def devMatchLine (iface l : String) : Bool :=
  !hpLine l && (pyIn "Device" l && pyIn iface l)

/-- The `current_port` value after scanning `pre`, starting from `cp`:
the after-colon value of the last "Hardware Port" line seen. -/
def lastPortLabel (cp : Option String) (pre : List String) : Option String :=
  pre.foldl
    (fun acc l =>
      if hpLine l then ((pySplit l ":")[1]?).map pyStrip else acc) cp

/-- First numeric value after the time marker, read off the spec's words:
the longest digits-and-dot prefix right after the first `time=` occurrence,
parsed as a float. -/
def spec_first_numeric_after_time (out : String) : Option ℚ :=
  match (splitList "time=".data out.data)[1]? with
  | none => none
  | some after =>
      pyFloat? (String.mk (after.takeWhile (fun c => c.isDigit || c == '.')))

/-! ### Internal lemmas -/

lemma ping_ok_of_ok (plat : Platform) (out : String) :
    ∃ p, ping_google plat (.ok out) = .ok p := by
  cases plat <;> unfold ping_google <;> dsimp only <;>
    (repeat' split) <;> exact ⟨_, rfl⟩

lemma runCycle_error (w : World) (h : w.pingExec = .exn) :
    (runCycle w).2 = .error () := by
  simp [runCycle, h, ping_google]

lemma runCycle_eq (w : World) (h : w.pingExec ≠ ExecResult.exn) :
    runCycle w = ([.timestamp, .httpGet, .ping] ++ (netInfo w).2
        ++ [.report (cycleLog w), .sleep 30],
      .ok (mkSnap w, cycleLog w)) := by
  cases hpe : w.pingExec with
  | exn => exact absurd hpe h
  | calledProcessError =>
      simp [runCycle, hpe, ping_google, mkSnap, pingOutcome, netInfo, cycleLog,
        Except.toOption]
  | ok out =>
      obtain ⟨p, hp⟩ := ping_ok_of_ok w.platform out
      simp [runCycle, hpe, hp, mkSnap, pingOutcome, netInfo, cycleLog,
        Except.toOption]

lemma runCycle_ok_inv (w : World) (s : Snapshot) (log : String)
    (hok : (runCycle w).2 = .ok (s, log)) :
    s = mkSnap w ∧ log = cycleLog w := by
  by_cases h : w.pingExec = .exn
  · rw [runCycle_error w h] at hok
    exact absurd hok (by simp)
  · rw [runCycle_eq w h] at hok
    simp only [Except.ok.injEq, Prod.mk.injEq] at hok
    exact ⟨hok.1.symm, hok.2.symm⟩

lemma mac_none_of_falsy (ifc : String → ExecResult) (d : Option String)
    (h : pyTruthy d = false) : get_mac_address ifc d = (none, []) := by
  simp [get_mac_address, h]

lemma svc_trace (r n : ExecResult) :
    (get_active_network_service r n).2 = [.route] ∨
    (get_active_network_service r n).2 = [.route, .networksetup] := by
  unfold get_active_network_service
  repeat' split
  all_goals simp

lemma info_of_falsy (r n : ExecResult) (ifc : String → ExecResult)
    (h : pyTruthy (get_active_network_service r n).1.device_name = false) :
    (get_active_network_info r n ifc).1.mac_address = none ∧
    (get_active_network_info r n ifc).2 = (get_active_network_service r n).2 := by
  simp [get_active_network_info, h]

lemma info_device_eq (r n : ExecResult) (ifc : String → ExecResult) :
    (get_active_network_info r n ifc).1.device_name
      = (get_active_network_service r n).1.device_name := by
  simp [get_active_network_info]

lemma devMatch_split (iface l : String) (h : devMatchLine iface l = true) :
    hpLine l = false ∧ (pyIn "Device" l && pyIn iface l) = true := by
  simp only [devMatchLine, Bool.and_eq_true, Bool.not_eq_true'] at h
  exact ⟨h.1, by simp [h.2.1, h.2.2]⟩

lemma findHP_cons (iface : String) (cp : Option String) (l : String)
    (rest : List String) :
    findHardwarePort iface cp (l :: rest)
      = if hpLine l then
          match (pySplit l ":")[1]? with
          | none => .error ()
          | some v => findHardwarePort iface (some (pyStrip v)) rest
        else if pyIn "Device" l && pyIn iface l then
          match (pySplit l ":")[1]? with
          | none => .error ()
          | some v => .ok ⟨cp, some (pyStrip v), false⟩
        else findHardwarePort iface cp rest := rfl

lemma findHP_append (iface : String) (cp : Option String) (pre : List String)
    (dline : String) (post : List String) (dval : String)
    (hpre : ∀ l ∈ pre, devMatchLine iface l = false)
    (hcolon : ∀ l ∈ pre, hpLine l = true → (pySplit l ":")[1]? ≠ none)
    (hd : devMatchLine iface dline = true)
    (hv : (pySplit dline ":")[1]? = some dval) :
    findHardwarePort iface cp (pre ++ dline :: post)
      = .ok ⟨lastPortLabel cp pre, some (pyStrip dval), false⟩ := by
  obtain ⟨hd1, hd2⟩ := devMatch_split iface dline hd
  revert hpre hcolon
  induction pre generalizing cp with
  | nil =>
      intro _ _
      simp [findHardwarePort, hd1, hd2, hv, lastPortLabel]
  | cons l rest ih =>
      intro hpre hcolon
      by_cases hhp : hpLine l = true
      · obtain ⟨v, hv2⟩ :=
          Option.ne_none_iff_exists'.mp (hcolon l (by simp) hhp)
        have hstep : lastPortLabel cp (l :: rest)
            = lastPortLabel (some (pyStrip v)) rest := by
          simp [lastPortLabel, hhp, hv2]
        rw [hstep, List.cons_append,
          show findHardwarePort iface cp (l :: (rest ++ dline :: post))
              = findHardwarePort iface (some (pyStrip v)) (rest ++ dline :: post)
            from by simp [findHP_cons, hhp, hv2]]
        exact ih _ (fun x hx => hpre x (by simp [hx]))
          (fun x hx hh => hcolon x (by simp [hx]) hh)
  -- non-"Hardware Port" non-matching line: scan continues unchanged
      · have hhp2 : hpLine l = false := by simpa using hhp
        have hdm : (pyIn "Device" l && pyIn iface l) = false := by
          have := hpre l (by simp)
          simpa [devMatchLine, hhp2] using this
        have hstep : lastPortLabel cp (l :: rest) = lastPortLabel cp rest := by
          simp [lastPortLabel, hhp2]
        rw [hstep, List.cons_append,
          show findHardwarePort iface cp (l :: (rest ++ dline :: post))
              = findHardwarePort iface cp (rest ++ dline :: post)
            from by simp [findHP_cons, hhp2, hdm]]
        exact ih _ (fun x hx => hpre x (by simp [hx]))
          (fun x hx hh => hcolon x (by simp [hx]) hh)

lemma findHP_nomatch (iface : String) (cp : Option String) (lines : List String)
    (hnm : ∀ l ∈ lines, devMatchLine iface l = false)
    (hcolon : ∀ l ∈ lines, hpLine l = true → (pySplit l ":")[1]? ≠ none) :
    findHardwarePort iface cp lines = .ok ⟨some "Unknown Network", none, false⟩ := by
  revert hnm hcolon
  induction lines generalizing cp with
  | nil => intro _ _; rfl
  | cons l rest ih =>
      intro hnm hcolon
      by_cases hhp : hpLine l = true
      · obtain ⟨v, hv2⟩ :=
          Option.ne_none_iff_exists'.mp (hcolon l (by simp) hhp)
        rw [show findHardwarePort iface cp (l :: rest)
              = findHardwarePort iface (some (pyStrip v)) rest
            from by simp [findHP_cons, hhp, hv2]]
        exact ih _ (fun x hx => hnm x (by simp [hx]))
          (fun x hx hh => hcolon x (by simp [hx]) hh)
      · have hhp2 : hpLine l = false := by simpa using hhp
        have hdm : (pyIn "Device" l && pyIn iface l) = false := by
          have := hnm l (by simp)
          simpa [devMatchLine, hhp2] using this
        rw [show findHardwarePort iface cp (l :: rest)
              = findHardwarePort iface cp rest
            from by simp [findHP_cons, hhp2, hdm]]
        exact ih _ (fun x hx => hnm x (by simp [hx]))
          (fun x hx hh => hcolon x (by simp [hx]) hh)


/-! ### Claims -/

/-- C1, counterexample: a zero-exit POSIX ping output with no `time=` marker
makes `ping_google` return `(True, 0.0)` — reachable with latency 0 — and not
the `(False, 0.0)` the claim requires. -/
theorem c1_counterexample :
    ping_google .posix (.ok "ping: cannot resolve google.com: Unknown host")
      = .ok (true, 0) ∧
    (Except.ok (true, (0 : ℚ)) : Except Unit (Bool × ℚ)) ≠ .ok (false, 0) := by
  decide

/-- C1, amended: a non-zero ping exit makes `ping_google` return
`(False, 0.0)`, but a zero-exit output with no recognized reply marker (no
`TTL=` on Windows, no `time=` on POSIX) returns `(True, 0.0)`: connectivity
stays true and only the latency defaults to 0. -/
theorem c1_amended_no_marker (plat : Platform) (out : String)
    (hposix : pyIn "time=" out = false) (hwin : pyIn "TTL=" out = false) :
    ping_google plat .calledProcessError = .ok (false, 0) ∧
    ping_google .posix (.ok out) = .ok (true, 0) ∧
    ping_google .windows (.ok out) = .ok (true, 0) := by
  refine ⟨by cases plat <;> rfl, ?_, ?_⟩
  · simp [ping_google, hposix]
  · simp [ping_google, hwin]

/-- C1, witness for the amended theorem at a concrete marker-free output. -/
theorem c1_witness :
    (pyIn "time=" "Request timeout for icmp_seq 0" = false ∧
     pyIn "TTL=" "Request timeout for icmp_seq 0" = false) ∧
    (ping_google .posix .calledProcessError = .ok (false, 0) ∧
     ping_google .posix (.ok "Request timeout for icmp_seq 0") = .ok (true, 0) ∧
     ping_google .windows (.ok "Request timeout for icmp_seq 0") = .ok (true, 0)) :=
  ⟨⟨by decide, by decide⟩,
    c1_amended_no_marker .posix "Request timeout for icmp_seq 0"
      (by decide) (by decide)⟩

/-- C2, counterexample: an executor failure that is not a
`subprocess.CalledProcessError` — e.g. the ping binary missing, raising
`FileNotFoundError` — propagates out of `ping_google` instead of producing
`(False, 0.0)`. -/
theorem c2_counterexample :
    ping_google .posix .exn = .error () ∧
    (Except.error () : Except Unit (Bool × ℚ)) ≠ .ok (false, 0) := by
  decide

/-- C2, amended: on a non-zero ping exit `ping_google` returns `(False, 0.0)`
without raising, but any other executor-level exception (such as a missing
ping binary) is not caught and propagates out of the probe. -/
theorem c2_amended_executor_failure (plat : Platform) :
    ping_google plat .calledProcessError = .ok (false, 0) ∧
    ping_google plat .exn = .error () := by
  cases plat <;> exact ⟨rfl, rfl⟩

/-- C5, counterexample: with two `time=` markers the parser takes the value
after the LAST marker (split on the marker, last piece), 2.5, not the first
numeric value following the (first) time marker, 1.5. -/
theorem c5_counterexample :
    ping_google .posix (.ok "a time=1.5 ms b time=2.5 ms")
      = .ok (true, mkRat 5 2) ∧
    spec_first_numeric_after_time "a time=1.5 ms b time=2.5 ms"
      = some (mkRat 3 2) ∧
    mkRat 5 2 ≠ mkRat 3 2 := by
  decide

/-- C5, amended: for every zero-exit POSIX output containing `time=`, if the
token after the last `time=` occurrence, cut at the first space and stripped,
parses as a float v, then `ping_google` returns `(True, v)`; for the common
single-marker outputs such as `... time=23.4 ms` this is the first numeric
value following the marker, 23.4. -/
theorem c5_amended_last_marker (out : String) (v : ℚ)
    (hm : pyIn "time=" out = true)
    (hv : pyFloat? (posixLatencyToken out) = some v) :
    ping_google .posix (.ok out) = .ok (true, v) := by
  simp [ping_google, hm, hv]

/-- C5, witness: the spec's own example output yields `(True, 23.4)`. -/
theorem c5_witness :
    (pyIn "time=" "64 bytes from 8.8.8.8: icmp_seq=0 ttl=115 time=23.4 ms" = true ∧
     pyFloat? (posixLatencyToken
       "64 bytes from 8.8.8.8: icmp_seq=0 ttl=115 time=23.4 ms")
       = some (mkRat 117 5)) ∧
    ping_google .posix (.ok "64 bytes from 8.8.8.8: icmp_seq=0 ttl=115 time=23.4 ms")
      = .ok (true, mkRat 117 5) :=
  ⟨⟨by decide, by decide⟩,
    c5_amended_last_marker "64 bytes from 8.8.8.8: icmp_seq=0 ttl=115 time=23.4 ms"
      (mkRat 117 5) (by decide) (by decide)⟩

/-- C9, counterexample: `response.raise_for_status()` raises only for
statuses in [400, 600), so a non-2xx status such as 301 returns the response
body, not the fixed "unavailable" string the claim requires. -/
theorem c9_counterexample :
    get_public_ip (.resp 301 "Moved Permanently") = "Moved Permanently" ∧
    "Moved Permanently" ≠ "Unable to get IP" := by
  decide

/-- C9, amended: on any `RequestException` (network error, timeout) and on
any 4xx/5xx response `get_public_ip` returns "Unable to get IP" without
raising; on every response with a status outside [400, 600) — in particular
every 2xx — it returns the response body. -/
theorem c9_amended_http (st1 st2 : ℕ) (b1 b2 : String)
    (h4 : 400 ≤ st1) (h6 : st1 < 600) (hlo : 200 ≤ st2) (hhi : st2 < 300) :
    get_public_ip .requestException = "Unable to get IP" ∧
    get_public_ip (.resp st1 b1) = "Unable to get IP" ∧
    get_public_ip (.resp st2 b2) = b2 := by
  refine ⟨rfl, ?_, ?_⟩
  · simp only [get_public_ip]
    rw [if_pos ⟨h4, h6⟩]
  · simp only [get_public_ip]
    rw [if_neg (by omega)]

/-- C9, witness at a 503 failure and a 200 success. -/
theorem c9_witness :
    (400 ≤ 503 ∧ 503 < 600 ∧ 200 ≤ 200 ∧ 200 < 300) ∧
    (get_public_ip .requestException = "Unable to get IP" ∧
     get_public_ip (.resp 503 "Service Unavailable") = "Unable to get IP" ∧
     get_public_ip (.resp 200 "203.0.113.7") = "203.0.113.7") :=
  ⟨by decide,
    c9_amended_http 503 200 "Service Unavailable" "203.0.113.7"
      (by decide) (by decide) (by decide) (by decide)⟩

/-- C3, counterexample: in the world `w0`, whose only degraded probe outcome
is a missing ping binary, the cycle propagates the exception and assembles no
Snapshot at all, so not every combination of probe outcomes produces a fully
populated Snapshot. -/
theorem c3_counterexample :
    w0.pingExec = ExecResult.exn ∧ (runCycle w0).2 = .error () := by
  constructor
  · rfl
  · decide

/-- C3, amended: for every combination of probe outcomes in which the
connectivity command itself can be invoked (its process may still exit
non-zero, and every other probe may fail arbitrarily), the cycle completes
and assembles the Snapshot `mkSnap w`, a record that carries a defined
value — real or placeholder — in all seven fields by construction. -/
theorem c3_amended_snapshot_total (w : World)
    (h : w.pingExec ≠ ExecResult.exn) :
    (runCycle w).2 = .ok (mkSnap w, cycleLog w) := by
  rw [runCycle_eq w h]

/-- C3, witness: the all-success world `w1` yields its Snapshot. -/
theorem c3_witness : (runCycle w1).2 = .ok (mkSnap w1, cycleLog w1) :=
  c3_amended_snapshot_total w1 (by decide)

/-- C4, counterexample: in the all-success world `w1` the cycle's action
trace runs the Public-IP probe BEFORE the Connectivity probe, so the claimed
order (timestamp, connectivity, public IP, ...) is not the one executed. -/
theorem c4_counterexample :
    (runCycle w1).1 = [.timestamp, .httpGet, .ping, .route, .networksetup,
      .ifconfig "en0", .report line1, .sleep 30] ∧
    (runCycle w1).1 ≠ [.timestamp, .ping, .httpGet, .route, .networksetup,
      .ifconfig "en0", .report line1, .sleep 30] := by
  decide

/-- C4, amended: whenever the ping command can be invoked, each cycle runs,
in order: capture timestamp, then the Public-IP probe, then the Connectivity
probe, then the Active-Interface probe (route, then hardware ports) with the
dependent MAC-Address probe, then report, then sleep 30 seconds. -/
theorem c4_amended_cycle_order (w : World)
    (h : w.pingExec ≠ ExecResult.exn) :
    (runCycle w).1 = [.timestamp, .httpGet, .ping] ++ (netInfo w).2
      ++ [.report (cycleLog w), .sleep 30] := by
  rw [runCycle_eq w h]

/-- C4, witness: the amended order at the all-success world `w1`. -/
theorem c4_witness :
    (runCycle w1).1 = [.timestamp, .httpGet, .ping] ++ (netInfo w1).2
      ++ [.report (cycleLog w1), .sleep 30] :=
  c4_amended_cycle_order w1 (by decide)

/-- C6, counterexample: with target interface "en0", the listing
`["Device: en0", "Hardware Port: Wi-Fi", "Device: en0"]` has a Hardware Port
line later followed by a matching Device line, yet the parser returns at the
very first matching Device line with an absent (None) port label — neither
the claimed (Wi-Fi, en0) pairing nor, for a listing with no pairing such as
`["Device: en0"]`, the claimed Unknown Network outcome. -/
theorem c6_counterexample :
    findHardwarePort "en0" none
        ["Device: en0", "Hardware Port: Wi-Fi", "Device: en0"]
      = .ok ⟨none, some "en0", false⟩ ∧
    (Except.ok (⟨none, some "en0", false⟩ : NetworkService)
      : Except Unit NetworkService) ≠ .ok ⟨some "Wi-Fi", some "en0", false⟩ ∧
    findHardwarePort "en0" none ["Device: en0"] = .ok ⟨none, some "en0", false⟩ ∧
    (Except.ok (⟨none, some "en0", false⟩ : NetworkService)
      : Except Unit NetworkService) ≠ .ok ⟨some "Unknown Network", none, false⟩ := by
  decide

/-- C6, amended: the parser returns at the FIRST line containing "Device"
and the interface (and not "Hardware Port"), pairing it with the most
recently seen Hardware Port label — the claimed port label when a Hardware
Port line precedes it, but an absent label when none does; and a listing
with no such Device line (whose Hardware Port lines are well-formed
colon-separated lines) yields the Unknown Network marker with absent
device. -/
theorem c6_amended_first_match :
    (∀ (iface : String) (cp : Option String) (pre : List String)
       (dline : String) (post : List String) (dval : String),
      (∀ l ∈ pre, devMatchLine iface l = false) →
      (∀ l ∈ pre, hpLine l = true → (pySplit l ":")[1]? ≠ none) →
      devMatchLine iface dline = true →
      (pySplit dline ":")[1]? = some dval →
      findHardwarePort iface cp (pre ++ dline :: post)
        = .ok ⟨lastPortLabel cp pre, some (pyStrip dval), false⟩) ∧
    (∀ (iface : String) (cp : Option String) (lines : List String),
      (∀ l ∈ lines, devMatchLine iface l = false) →
      (∀ l ∈ lines, hpLine l = true → (pySplit l ":")[1]? ≠ none) →
      findHardwarePort iface cp lines
        = .ok ⟨some "Unknown Network", none, false⟩) :=
  ⟨fun iface cp pre dline post dval h1 h2 h3 h4 =>
      findHP_append iface cp pre dline post dval h1 h2 h3 h4,
    fun iface cp lines h1 h2 => findHP_nomatch iface cp lines h1 h2⟩

/-- C6, witness: a Hardware Port line followed by the matching Device line
resolves to that port's label and device. -/
theorem c6_witness :
    ((∀ l ∈ ["Hardware Port: Wi-Fi"], devMatchLine "en0" l = false) ∧
     (∀ l ∈ ["Hardware Port: Wi-Fi"], hpLine l = true →
        (pySplit l ":")[1]? ≠ none) ∧
     devMatchLine "en0" "Device: en0" = true ∧
     (pySplit "Device: en0" ":")[1]? = some " en0") ∧
    (findHardwarePort "en0" none (["Hardware Port: Wi-Fi"] ++ "Device: en0" :: [])
       = .ok ⟨lastPortLabel none ["Hardware Port: Wi-Fi"], some (pyStrip " en0"),
           false⟩ ∧
     lastPortLabel none ["Hardware Port: Wi-Fi"] = some "Wi-Fi" ∧
     pyStrip " en0" = "en0") :=
  ⟨⟨by decide, by decide, by decide, by decide⟩,
    ⟨c6_amended_first_match.1 "en0" none ["Hardware Port: Wi-Fi"] "Device: en0"
        [] " en0" (by decide) (by decide) (by decide) (by decide),
      by decide, by decide⟩⟩

/-- C7: a falsy (None or empty) device name makes `get_mac_address` return
`None` with no command invoked; when the service lookup yields a falsy
device name, the assembled network info has an absent MAC and no `ifconfig`
invocation appears in the cycle's trace; and every assembled Snapshot with a
falsy device field has an absent MAC field. -/
theorem c7_mac_skipped_when_device_absent :
    (∀ (ifc : String → ExecResult) (d : Option String), pyTruthy d = false →
      get_mac_address ifc d = (none, [])) ∧
    (∀ (r n : ExecResult) (ifc : String → ExecResult),
      pyTruthy (get_active_network_service r n).1.device_name = false →
      (get_active_network_info r n ifc).1.mac_address = none ∧
      ∀ dev : String, Ev.ifconfig dev ∉ (get_active_network_info r n ifc).2) ∧
    (∀ (w : World) (s : Snapshot) (log : String),
      (runCycle w).2 = .ok (s, log) → pyTruthy s.device_name = false →
      s.mac_address = none) := by
  refine ⟨mac_none_of_falsy, ?_, ?_⟩
  · intro r n ifc h
    obtain ⟨h1, h2⟩ := info_of_falsy r n ifc h
    refine ⟨h1, ?_⟩
    intro dev
    rw [h2]
    rcases svc_trace r n with h3 | h3 <;> rw [h3] <;> simp
  · intro w s log hok h
    obtain ⟨hs, -⟩ := runCycle_ok_inv w s log hok
    subst hs
    dsimp only [mkSnap, netInfo] at h ⊢
    rw [info_device_eq] at h
    exact (info_of_falsy _ _ _ h).1

/-- C7, witness: with no device name, the MAC probe is skipped. -/
theorem c7_witness :
    pyTruthy (none : Option String) = false ∧
    get_mac_address (fun _ => ExecResult.ok "\tether aa:bb\n") none = (none, []) :=
  ⟨by decide,
    c7_mac_skipped_when_device_absent.1
      (fun _ => ExecResult.ok "\tether aa:bb\n") none (by decide)⟩

/-- C8: the Reporter emits exactly the pipe-delimited line with the
timestamp, network, device, MAC, IP and status fields, appending the
`" | Latency: <v>ms"` suffix if and only if connectivity is true; every
completed cycle's log line is the formatting of its own Snapshot; and the
spec's scenario-2 Snapshot formats to exactly the expected literal line. -/
theorem c8_reporter_format :
    (∀ (t : String) (nn dn mac : Option String) (ip : String) (lat : ℚ),
      format_log_entry t nn dn mac ip true lat
        = t ++ " | Network: " ++ pyStr nn ++ " | Device Name: " ++ pyStr dn
          ++ " | MAC Address: " ++ pyStr mac ++ " | IP: " ++ ip
          ++ " | Status: " ++ "Connected"
          ++ " | Latency: " ++ pyFloatRepr lat ++ "ms" ∧
      format_log_entry t nn dn mac ip false lat
        = t ++ " | Network: " ++ pyStr nn ++ " | Device Name: " ++ pyStr dn
          ++ " | MAC Address: " ++ pyStr mac ++ " | IP: " ++ ip
          ++ " | Status: " ++ "Disconnected") ∧
    (∀ (w : World) (s : Snapshot) (log : String),
      (runCycle w).2 = .ok (s, log) →
      log = format_log_entry s.timestamp s.network_name s.device_name
        s.mac_address s.public_ip s.is_connected s.latency) ∧
    format_log_entry "2026-10-12 00:00:00" (some "Wi-Fi") (some "en0")
      (some "aa:bb:cc:dd:ee:ff") "203.0.113.7" true (mkRat 123 10) = line1 := by
  refine ⟨fun t nn dn mac ip lat => ⟨rfl, rfl⟩, ?_, by decide⟩
  intro w s log hok
  obtain ⟨hs, hl⟩ := runCycle_ok_inv w s log hok
  subst hs
  subst hl
  rfl

/-- C8, witness: scenario 2 end to end in world `w1`. -/
theorem c8_witness :
    (runCycle w1).2 = .ok (snap1, line1) ∧
    line1 = format_log_entry snap1.timestamp snap1.network_name
      snap1.device_name snap1.mac_address snap1.public_ip
      snap1.is_connected snap1.latency :=
  ⟨by decide, c8_reporter_format.2.1 w1 snap1 line1 (by decide)⟩

/-- C10: `get_active_network_service` is total over executor outcomes: every
failure — non-zero exit or any other exception of the route command, of the
hardware-ports command (reached only when a truthy interface was found), or
an `IndexError` while parsing the listing — yields the dictionary with
network_name "Error" and device_name None instead of propagating. -/
theorem c10_service_error_total :
    (∀ n : ExecResult,
      get_active_network_service .calledProcessError n = (errSvc, [.route]) ∧
      get_active_network_service .exn n = (errSvc, [.route])) ∧
    (∀ (out : String) (ai : Option String) (n : ExecResult),
      interfaceFromRoute out = .ok ai → pyTruthy ai = true →
      n = .calledProcessError ∨ n = .exn →
      get_active_network_service (.ok out) n = (errSvc, [.route, .networksetup])) ∧
    (∀ (out ns : String) (ai : Option String),
      interfaceFromRoute out = .ok ai → pyTruthy ai = true →
      findHardwarePort (ai.getD "") none (pySplitlines ns) = .error () →
      get_active_network_service (.ok out) (.ok ns)
        = (errSvc, [.route, .networksetup])) := by
  refine ⟨fun n => ⟨rfl, rfl⟩, ?_, ?_⟩
  · intro out ai n h1 h2 h3
    unfold get_active_network_service
    dsimp only
    rw [h1]
    dsimp only
    rw [h2]
    rcases h3 with rfl | rfl <;> rfl
  · intro out ns ai h1 h2 h3
    unfold get_active_network_service
    dsimp only
    rw [h1]
    dsimp only
    rw [h2, h3]
    rfl

/-- C10, witness: a failing hardware-ports command, and a listing whose
Hardware Port line has no colon (raising `IndexError`), both degrade to the
Error dictionary. -/
theorem c10_witness :
    (interfaceFromRoute "interface: en0" = .ok (some "en0") ∧
     pyTruthy (some "en0") = true ∧
     findHardwarePort "en0" none (pySplitlines "Hardware Port Wi-Fi")
       = .error ()) ∧
    (get_active_network_service (.ok "interface: en0") .calledProcessError
       = (errSvc, [.route, .networksetup]) ∧
     get_active_network_service (.ok "interface: en0") (.ok "Hardware Port Wi-Fi")
       = (errSvc, [.route, .networksetup])) :=
  ⟨⟨by decide, by decide, by decide⟩,
    ⟨c10_service_error_total.2.1 "interface: en0" (some "en0")
        .calledProcessError (by decide) (by decide) (Or.inl rfl),
      c10_service_error_total.2.2 "interface: en0" "Hardware Port Wi-Fi"
        (some "en0") (by decide) (by decide) (by decide)⟩⟩

end AutoNetMon
